import Mathlib

/-!
Shallow embedding of `src/lib/UploadGarmin.py` (the `UploadGarmin` client for
the Garmin Connect web service).

The network is modelled by a `NetEnv` of scripted `HttpResponse`s, one per
endpoint the negotiation protocol can touch; every operation returns the list
of network requests it issued (`List Req`) next to its result, so that claims
about "no further requests" become statements about that trace.  Python
exceptions are modelled by `Except` with a `GCError` constructor per `raise`
site; Python truthiness of the cookie jar (`if self.cookies:`) is modelled by
`pyTruthy`, which is false for both `None` and an empty jar.  Regular
expression searches (`re.search`) used by the login flows are modelled by
direct leftmost-match scanners over the character list of the body.  Form
payloads that no claim inspects (username, password, the fixed SSO parameter
dictionaries) are elided from the request trace; the view-state token, which
claims do inspect, is carried on the legacy sign-in post.
-/

namespace GarminUploader

/-! ### String scanning helpers (models of `in` and `re.search`) -/

/-- Model of the Python substring test `needle in hay` on character lists. -/
def containsSub (needle : List Char) : List Char → Bool
  | [] => needle.isEmpty
  | c :: t => needle.isPrefixOf (c :: t) || containsSub needle t

/-- Model of `needle in hay` for strings. -/
def strContains (needle hay : String) : Bool :=
  containsSub needle.toList hay.toList

/-- Numeric value of a decimal digit character. -/
def digitVal (c : Char) : Nat := c.toNat - 48

/-- Value of a nonempty list of decimal digits, most significant first
(model of Python `int` applied to the captured digit group). -/
def natOfDigits (l : List Char) : Nat :=
  l.foldl (fun n c => 10 * n + digitVal c) 0

/-- Model of `re.search("j_id(\\d+)", text)` followed by `int(...)`:
leftmost occurrence of the literal `j_id` followed by at least one digit;
the captured group is the maximal digit run.  `none` models a failed search
(on which the Python code crashes with an `AttributeError`). -/
def findJid : List Char → Option Nat
  | [] => none
  | c :: t =>
    let l := c :: t
    if ("j_id".toList).isPrefixOf l then
      let rest := l.drop 4
      let run := rest.takeWhile Char.isDigit
      if run.isEmpty then findJid t else some (natOfDigits run)
    else findJid t

/-- The single-quote character, written by code point to keep sources plain. -/
def squote : Char := Char.ofNat 39

/-- Model of `re.search("ticket=([^']+)'", text)`: leftmost occurrence of the
literal `ticket=` followed by a nonempty run of non-single-quote characters
terminated by a single quote; the run is the captured ticket. -/
def findTicket : List Char → Option (List Char)
  | [] => none
  | c :: t =>
    let l := c :: t
    if ("ticket=".toList).isPrefixOf l then
      let rest := l.drop 7
      let run := rest.takeWhile (fun ch => ch ≠ squote)
      let after := rest.drop run.length
      if run.isEmpty then findTicket t
      else if after.isEmpty then findTicket t
      else some run
    else findTicket t

/-- The double-quote character. -/
def dquote : Char := Char.ofNat 34

/-- Whitespace class of Python's regex `\s`. -/
def isPyWs (c : Char) : Bool :=
  c = ' ' || c = Char.ofNat 9 || c = Char.ofNat 10 || c = Char.ofNat 13 ||
    c = Char.ofNat 11 || c = Char.ofNat 12

/-- Literal `name="lt"` of the login-token pattern. -/
def ltMarker : List Char := "name=\"lt\"".toList

/-- Literal `value="` of the login-token pattern. -/
def valueMarker : List Char := "value=\"".toList

/-- Model of `re.search("name=\"lt\"\\s+value=\"([^\"]+)\"", text)`: leftmost
occurrence of `name="lt"`, at least one whitespace character, `value="`, then
a nonempty run of non-double-quote characters closed by a double quote. -/
def findLt : List Char → Option (List Char)
  | [] => none
  | c :: t =>
    let l := c :: t
    if ltMarker.isPrefixOf l then
      let rest := l.drop ltMarker.length
      let ws := rest.takeWhile isPyWs
      let rest2 := rest.drop ws.length
      if ws.isEmpty then findLt t
      else if valueMarker.isPrefixOf rest2 then
        let rest3 := rest2.drop valueMarker.length
        let run := rest3.takeWhile (fun ch => ch ≠ dquote)
        let after := rest3.drop run.length
        if run.isEmpty then findLt t
        else if after.isEmpty then findLt t
        else some run
      else findLt t
    else findLt t

/-! ### Data model -/

/-- A cookie jar: the opaque session credential (`requests` cookies). -/
abbrev Credential := List (String × String)

/-- A scripted HTTP response: status code, text body, and attached cookies. -/
structure HttpResponse where
  status : Nat
  body : String
  cookies : Credential
deriving DecidableEq

/-- A Python value as far as `set_activity_type` can observe one: the helper
`_check_activity_type` returns either a key string or `False`, and the caller
tests the result against `None`. -/
inductive PyVal where
  | str (s : String)
  | pyFalse
  | pyNone
deriving DecidableEq

/-- Model of Python's `is None` test. -/
def pyIsNone : PyVal → Bool
  | PyVal.pyNone => true
  | _ => false

/-- Model of Python `==` between a JSON string and a `PyVal` (a string never
equals `False` or `None`). -/
def pyEqStrVal (s : String) (v : PyVal) : Bool :=
  match v with
  | PyVal.str t => s == t
  | _ => false

/-- The network requests the client can issue, in the order recorded. -/
inductive Req where
  | probe
  | signinGet
  | signinPost (viewState : String)
  | ssoPreGet
  | ssoLoginPost
  | redeemGet1
  | redeemGet2
  | uploadPost (ext : String)
  | renamePost (workoutId : Int)
  | typePost (workoutId : Int) (value : PyVal)
deriving DecidableEq

/-- One constructor per `raise` site of `UploadGarmin.py` (plus the Python
runtime errors the code can hit).  In the spec's error taxonomy:
`invalidLogin` is InvalidCredentials (raised with `intervention_required`),
`unknownPrestart` and `mysteryLogin` are ProtocolMismatch, and
`remoteApiFailure`, `ssoPrestartError`, `ssoError`, `redeem1Error`,
`redeem2Error` are RemoteServerError. -/
inductive GCError where
  | missingCredentials
  | remoteApiFailure
  | invalidLogin
  | mysteryLogin
  | ssoPrestartError
  | ssoError
  | redeem1Error
  | redeem2Error
  | unknownPrestart
  | invalidFileExtension
  | pyAttributeError
  | pyKeyError
  | pyIndexError
deriving DecidableEq

/-- Scripted responses for every endpoint negotiation can touch.  The legacy
sign-in posts are indexed by attempt number. -/
structure NetEnv where
  probe : HttpResponse
  signinPage : HttpResponse
  posts : Nat → HttpResponse
  ssoPre : HttpResponse
  ssoLogin : HttpResponse
  redeem1 : HttpResponse
  redeem2 : HttpResponse

/-- The mutable cookie cache of a client instance (`self.cookies`). -/
structure ClientState where
  cookies : Option Credential
deriving DecidableEq

/-- Python truthiness of `self.cookies`: `None` is falsy, and so is an empty
cookie jar (`RequestsCookieJar` defines `__len__`). -/
def pyTruthy : Option Credential → Bool
  | none => false
  | some c => !c.isEmpty

/-! ### Session negotiation (`_get_cookies`, lines 144-240) -/

/-- The `auth_retries` bound of the legacy sign-in loop. -/
def AUTH_RETRIES : Nat := 3

/-- Body of the legacy `for retries in range(auth_retries)` loop from iteration
`retries` on, with `left` iterations remaining (`left + retries = 3` at every
call from `legacyFlow`).  `reqCount` is the view-state number used by the
current post (the Python code increments `req_count` right after embedding it).
Returns the loop outcome together with the posts issued, each carrying its
`javax.faces.ViewState` token. -/
def legacyLoop (posts : Nat → HttpResponse) :
    Nat → Nat → Nat → Except GCError Unit × List Req
  | 0, _, _ => (Except.ok (), [])
  | left + 1, reqCount, retries =>
    let resp := posts retries
    let req := Req.signinPost ("j_id" ++ toString reqCount)
    if 500 ≤ resp.status ∧ resp.status < 600 then
      (Except.error GCError.remoteApiFailure, [req])
    else if resp.status ≠ 302 then
      if strContains "errorMessage" resp.body then
        if retries < AUTH_RETRIES - 1 then
          let next := legacyLoop posts left (reqCount + 1) (retries + 1)
          (next.1, req :: next.2)
        else (Except.error GCError.invalidLogin, [req])
      else (Except.error GCError.mysteryLogin, [req])
    else (Except.ok (), [req])

/-- The 200 branch of `_get_cookies`: fetch the sign-in page (reassigning
`gcPreResp`, so the credential produced by this flow is the sign-in page's
cookie jar), extract the view-state number, and run the retry loop.  A failed
`re.search` crashes with an `AttributeError` (`.groups` on `None`). -/
def legacyFlow (env : NetEnv) : Except GCError Credential × List Req :=
  match findJid env.signinPage.body.toList with
  | none => (Except.error GCError.pyAttributeError, [Req.signinGet])
  | some n =>
    let loopRes := legacyLoop env.posts AUTH_RETRIES n 0
    match loopRes.1 with
    | Except.error e => (Except.error e, Req.signinGet :: loopRes.2)
    | Except.ok _ => (Except.ok env.signinPage.cookies, Req.signinGet :: loopRes.2)

/-- The 302 branch of `_get_cookies`: SSO login page, SSO credential post,
ticket extraction, and the two redemption GETs.  The second redemption GET
targets the first one's `location` header; that target is elided from the
trace since no claim inspects it.  On success the credential is the probe
response's cookie jar (`gcPreResp` is not reassigned on this branch). -/
def ssoFlow (env : NetEnv) : Except GCError Credential × List Req :=
  let t1 : List Req := [Req.ssoPreGet]
  if env.ssoPre.status ≠ 200 then (Except.error GCError.ssoPrestartError, t1)
  else
    match findLt env.ssoPre.body.toList with
    | none => (Except.error GCError.pyAttributeError, t1)
    | some _ =>
      let t2 := t1 ++ [Req.ssoLoginPost]
      if env.ssoLogin.status ≠ 200 then (Except.error GCError.ssoError, t2)
      else
        match findTicket env.ssoLogin.body.toList with
        | none => (Except.error GCError.invalidLogin, t2)
        | some _ =>
          let t3 := t2 ++ [Req.redeemGet1]
          if env.redeem1.status ≠ 302 then (Except.error GCError.redeem1Error, t3)
          else
            let t4 := t3 ++ [Req.redeemGet2]
            if env.redeem2.status ≠ 302 then (Except.error GCError.redeem2Error, t4)
            else (Except.ok env.probe.cookies, t4)

/-- The probe request and the branch on its status code (lines 152, 154, 177,
236): 200 runs the legacy form flow, 302 the SSO ticket flow, anything else
raises `Unknown GC prestart response` having issued only the probe. -/
def negotiate (env : NetEnv) : Except GCError Credential × List Req :=
  if env.probe.status = 200 then
    let r := legacyFlow env
    (r.1, Req.probe :: r.2)
  else if env.probe.status = 302 then
    let r := ssoFlow env
    (r.1, Req.probe :: r.2)
  else (Except.error GCError.unknownPrestart, [Req.probe])

/-- `_get_cookies(username, password)`: return the cached jar when it is
truthy; raise when a credential is missing; otherwise negotiate and cache the
resulting jar (line 239).  The result is (outcome, issued requests, new
state); an exception leaves `self.cookies` unchanged. -/
def getCookies (env : NetEnv) (st : ClientState)
    (username password : Option String) :
    Except GCError Credential × List Req × ClientState :=
  if pyTruthy st.cookies then (Except.ok (st.cookies.getD []), [], st)
  else if username.isNone || password.isNone then
    (Except.error GCError.missingCredentials, [], st)
  else
    let r := negotiate env
    match r.1 with
    | Except.error e => (Except.error e, r.2, st)
    | Except.ok c => (Except.ok c, r.2, { cookies := some c })

/-! ### Upload classification (`upload_file`, lines 243-284) -/

/-- The accepted activity-file extensions. -/
def VALID_GARMIN_FILE_EXTENSIONS : List String := [".tcx", ".fit", ".gpx"]

/-- One entry of a `messages` array in the upload response. -/
structure Message where
  code : Int
  content : String
deriving DecidableEq

/-- One entry of the `successes` / `failures` arrays. -/
structure UploadEntry where
  internalId : Int
  messages : List Message
deriving DecidableEq

/-- The `detailedImportResult` object of the upload response. -/
structure DetailedImportResult where
  successes : List UploadEntry
  failures : List UploadEntry
deriving DecidableEq

/-- The tri-state result of `upload_file` (first element of the returned
pair, with the payload the code attaches to it). -/
inductive UploadResult where
  | EXISTS (internalId : Int)
  | FAIL (messages : List Message)
  | SUCCESS (internalId : Int)
deriving DecidableEq

/-- The hardcoded `already imported` message code (line 278). -/
def DUPLICATE_CODE : Int := 202

/-- Lines 277-284: classification of the parsed upload response.  Indexing an
empty array models Python's `IndexError`. -/
def classifyUpload (r : DetailedImportResult) : Except GCError UploadResult :=
  if r.successes.length = 0 then
    match r.failures.head? with
    | none => Except.error GCError.pyIndexError
    | some f =>
      match f.messages.head? with
      | none => Except.error GCError.pyIndexError
      | some m =>
        if m.code = DUPLICATE_CODE then Except.ok (UploadResult.EXISTS f.internalId)
        else Except.ok (UploadResult.FAIL f.messages)
  else
    match r.successes.head? with
    | none => Except.error GCError.pyIndexError
    | some s => Except.ok (UploadResult.SUCCESS s.internalId)

/-- `upload_file`: validate the (already lower-cased) extension, fetch the
session cookies — passing no username or password — post the file, and
classify the parsed response.  `resp` is the parsed `detailedImportResult`. -/
def uploadFile (env : NetEnv) (st : ClientState) (ext : String)
    (resp : DetailedImportResult) : Except GCError UploadResult × List Req :=
  if ext ∈ VALID_GARMIN_FILE_EXTENSIONS then
    let gc := getCookies env st none none
    match gc.1 with
    | Except.error e => (Except.error e, gc.2.1)
    | Except.ok _ => (classifyUpload resp, gc.2.1 ++ [Req.uploadPost ext])
  else (Except.error GCError.invalidFileExtension, [])

/-! ### Rename (`set_workout_name`, lines 286-304) -/

/-- A rename response: the status code, and `res.json()["display"]["value"]`
when the body parses to one (`none` models a 200 body from which that path
cannot be read, on which the Python code raises). -/
structure RenameResp where
  status : Nat
  echo : Option String
deriving DecidableEq

/-- `set_workout_name`: fetch cookies (no credentials passed), post the
URL-encoded name, and on a 200 compare the echoed value with the requested
name; any non-200 status reports `false`. -/
def setWorkoutName (env : NetEnv) (st : ClientState) (workoutId : Int)
    (name : String) (resp : RenameResp) : Except GCError Bool × List Req :=
  let gc := getCookies env st none none
  match gc.1 with
  | Except.error e => (Except.error e, gc.2.1)
  | Except.ok _ =>
    let tr := gc.2.1 ++ [Req.renamePost workoutId]
    if resp.status = 200 then
      match resp.echo with
      | none => (Except.error GCError.pyKeyError, tr)
      | some v => (Except.ok (v == name), tr)
    else (Except.ok false, tr)

/-! ### Activity type (`_check_activity_type` and `set_activity_type`,
lines 312-345) -/

/-- One entry of the activity-type dictionary fetched at construction. -/
structure ActivityTypeEntry where
  key : String
  display : String
deriving DecidableEq

/-- Model of `str.lower` on one character (the ASCII range; every label and
dictionary entry the claims touch is ASCII). -/
def pyLowerChar (c : Char) : Char :=
  if 65 <= c.toNat ∧ c.toNat <= 90 then Char.ofNat (c.toNat + 32) else c

/-- Model of Python `str.lower`. -/
def pyLower (s : String) : String := ⟨s.data.map pyLowerChar⟩

/-- Lines 318-323: `activity_type.lower() in (activity['key'],
activity['display'].lower())` over the hierarchy in fetch order; returns the
matching entry's key, or Python `False` when nothing matches.  The label is
lower-cased, the `key` field is compared verbatim, only `display` is also
lower-cased. -/
def checkActivityType (hierarchy : List ActivityTypeEntry) (label : String) :
    PyVal :=
  match hierarchy with
  | [] => PyVal.pyFalse
  | e :: rest =>
    if pyLower label == e.key || pyLower label == pyLower e.display then
      PyVal.str e.key
    else checkActivityType rest label

/-- An activity-type response: the status code, and
`res.json()["activityType"]["key"]` when the `activityType` field is present. -/
structure TypeResp where
  status : Nat
  activityTypeKey : Option String
deriving DecidableEq

/-- `set_activity_type`: resolve the label, test the result against `None`
(the guard of line 327 — note the helper returns `False`, never `None`), then
fetch cookies (no credentials passed), post the resolved value, and on a 200
require the echoed `activityType.key` to equal the value sent. -/
def setActivityType (env : NetEnv) (st : ClientState)
    (hierarchy : List ActivityTypeEntry) (workoutId : Int) (label : String)
    (resp : TypeResp) : Except GCError Bool × List Req :=
  let activityKey := checkActivityType hierarchy label
  if pyIsNone activityKey then (Except.ok false, [])
  else
    let gc := getCookies env st none none
    match gc.1 with
    | Except.error e => (Except.error e, gc.2.1)
    | Except.ok _ =>
      let tr := gc.2.1 ++ [Req.typePost workoutId activityKey]
      if resp.status = 200 then
        match resp.activityTypeKey with
        | none => (Except.ok false, tr)
        | some k => (Except.ok (pyEqStrVal k activityKey), tr)
      else (Except.ok false, tr)

/-! ### Rate limiting (`_rate_limit`, lines 125-134) -/

/-- The `min_period` constant (1 time unit). -/
def MIN_PERIOD : ℚ := 1

/-- One `_rate_limit()` call at clock reading `now` with `self._last_req_start`
equal to `last`: the falsy values `None` and `0.0` are both replaced by `0.0`
before computing the wait, the thread sleeps `max 0 (min_period - (now -
last))`, and the new recorded start is the clock reading after the sleep
(modelled as exact: `now + wait`).  Returns (wait time, new recorded start). -/
def rateLimit (last : Option ℚ) (now : ℚ) : ℚ × ℚ :=
  let effective := last.getD 0
  let waitTime := max 0 (MIN_PERIOD - (now - effective))
  (waitTime, now + waitTime)

/-- The recorded start times produced by a sequence of `_rate_limit()` calls
whose clock readings are `times`, starting from last-start state `last`. -/
def recordedStarts : Option ℚ → List ℚ → List ℚ
  | _, [] => []
  | last, t :: ts =>
    let s := (rateLimit last t).2
    s :: recordedStarts (some s) ts

/-- The predicate `_check_activity_type` tests one entry against: the
lower-cased label equals the `key` verbatim, or equals the lower-cased
`display`. -/
def entryMatches (label : String) (e : ActivityTypeEntry) : Bool :=
  pyLower label == e.key || pyLower label == pyLower e.display

/-! ### Concrete instances used by witnesses and counterexamples -/

/-- A placeholder response for endpoints a scenario never reaches. -/
def dummyResp : HttpResponse := ⟨0, "", []⟩

/-- An environment whose endpoints are never reached. -/
def envDummy : NetEnv :=
  ⟨dummyResp, dummyResp, fun _ => dummyResp, dummyResp, dummyResp, dummyResp,
   dummyResp⟩

/-- A probe answering 200 and a sign-in page carrying view-state `j_id42`,
with every credential post rejected (403 with the error marker). -/
def envLegacy : NetEnv :=
  ⟨⟨200, "", [("p", "1")]⟩, ⟨200, "please j_id42 now", [("s", "2")]⟩,
   fun _ => ⟨403, "an errorMessage marker", []⟩, dummyResp, dummyResp,
   dummyResp, dummyResp⟩

/-- A probe answering 302, an SSO page carrying a login token, and an SSO
login response whose body holds no ticket. -/
def env302 : NetEnv :=
  ⟨⟨302, "", [("p", "1")]⟩, dummyResp, fun _ => dummyResp,
   ⟨200, "name=\"lt\" value=\"LT-55\"", []⟩, ⟨200, "no ticket here", []⟩,
   dummyResp, dummyResp⟩

/-- A probe answering neither 200 nor 302. -/
def env404 : NetEnv :=
  ⟨⟨404, "oops", []⟩, dummyResp, fun _ => dummyResp, dummyResp, dummyResp,
   dummyResp, dummyResp⟩

/-- A freshly constructed client (`self.cookies = None`). -/
def stFresh : ClientState := ⟨none⟩

/-- A client holding a non-empty negotiated cookie jar. -/
def stAuth : ClientState := ⟨some [("session", "abc")]⟩

/-- A client whose negotiation stored an empty cookie jar. -/
def stEmptyJar : ClientState := ⟨some []⟩

/-- A one-entry activity-type dictionary with a lower-case key. -/
def hierarchyStd : List ActivityTypeEntry := [⟨"running", "Running"⟩]

/-! ### Helper lemmas -/

/-- `_check_activity_type` returns a key string or `False`, never `None`. -/
lemma checkActivityType_not_none (hierarchy : List ActivityTypeEntry)
    (label : String) : pyIsNone (checkActivityType hierarchy label) = false := by
  induction hierarchy with
  | nil => rfl
  | cons e rest ih =>
    simp only [checkActivityType]
    split
    · rfl
    · exact ih

/-- When the cookie cache is falsy and credentials are supplied,
`_get_cookies` issues exactly the requests of the negotiation. -/
lemma getCookies_trace_of_falsy (env : NetEnv) (st : ClientState) (u p : String)
    (hc : pyTruthy st.cookies = false) :
    (getCookies env st (some u) (some p)).2.1 = (negotiate env).2 := by
  simp only [getCookies, hc, Bool.false_eq_true, if_false, Option.isNone_some,
    Bool.or_self]
  cases h : (negotiate env).1 <;> simp [h]

/-- When the cookie cache is falsy and credentials are supplied, a failed
negotiation propagates its exception and leaves the cache unchanged. -/
lemma getCookies_of_negotiate_error (env : NetEnv) (st : ClientState)
    (u p : String) (e : GCError) (tr : List Req)
    (hc : pyTruthy st.cookies = false)
    (hneg : negotiate env = (Except.error e, tr)) :
    getCookies env st (some u) (some p) = (Except.error e, tr, st) := by
  simp [getCookies, hc, hneg]

/-- Every branch of the legacy flow records the sign-in page fetch first. -/
lemma legacyFlow_trace_take_one (env : NetEnv) :
    (legacyFlow env).2.take 1 = [Req.signinGet] := by
  simp only [legacyFlow]
  split
  · rfl
  · split <;> rfl

/-- Every branch of the SSO flow records the SSO login-page fetch first. -/
lemma ssoFlow_trace_take_one (env : NetEnv) :
    (ssoFlow env).2.take 1 = [Req.ssoPreGet] := by
  simp only [ssoFlow]
  split
  · rfl
  · split
    · rfl
    · split
      · rfl
      · split
        · rfl
        · split
          · rfl
          · split <;> rfl

/-- Three consecutive rejected posts (non-5xx, non-302, body carrying the
error marker) exhaust the retry loop: the view-state number increments once
per attempt and the loop raises `Invalid login`. -/
lemma legacyLoop_three_failures (posts : Nat → HttpResponse) (n : Nat)
    (hposts : ∀ i, i < 3 →
      ¬(500 ≤ (posts i).status ∧ (posts i).status < 600) ∧
      (posts i).status ≠ 302 ∧ strContains "errorMessage" (posts i).body = true) :
    legacyLoop posts AUTH_RETRIES n 0 =
      (Except.error GCError.invalidLogin,
       [Req.signinPost ("j_id" ++ toString n),
        Req.signinPost ("j_id" ++ toString (n + 1)),
        Req.signinPost ("j_id" ++ toString (n + 2))]) := by
  obtain ⟨h0a, h0b, h0c⟩ := hposts 0 (by norm_num)
  obtain ⟨h1a, h1b, h1c⟩ := hposts 1 (by norm_num)
  obtain ⟨h2a, h2b, h2c⟩ := hposts 2 (by norm_num)
  show legacyLoop posts 3 n 0 = _
  simp [legacyLoop, AUTH_RETRIES, h0a, h0b, h0c, h1a, h1b, h1c, h2a, h2b, h2c]

/-- One rate-limited call after a recorded start `s` records a start at least
`min_period` later. -/
lemma rateLimit_spacing_step (s u : ℚ) :
    s + MIN_PERIOD ≤ (rateLimit (some s) u).2 := by
  simp only [rateLimit, Option.getD_some, MIN_PERIOD]
  have h := le_max_right (0 : ℚ) (1 - (u - s))
  linarith

/-- Consecutive recorded starts of any call sequence are at least
`min_period` apart, from any initial last-start state. -/
lemma recordedStarts_chain (times : List ℚ) :
    ∀ last : Option ℚ,
      List.Chain' (fun a b => a + MIN_PERIOD ≤ b) (recordedStarts last times) := by
  induction times with
  | nil => intro last; simp [recordedStarts]
  | cons t ts ih =>
    intro last
    simp only [recordedStarts]
    rw [List.chain'_cons']
    refine ⟨?_, ih (some (rateLimit last t).2)⟩
    intro y hy
    cases ts with
    | nil => simp [recordedStarts] at hy
    | cons v vs =>
      simp only [recordedStarts, List.head?_cons, Option.mem_def,
        Option.some.injEq] at hy
      rw [← hy]
      exact rateLimit_spacing_step _ _

/-! ### Claim theorems -/

/-- C1: negotiation branches on the probe response's status code: 200 drives
the legacy-form flow (the next request issued is the sign-in page fetch), 302
drives the SSO-ticket flow (the next request issued is the SSO login-page
fetch), and any other status raises the protocol-mismatch error
(`Unknown GC prestart response`) with no request beyond the probe. -/
theorem probe_status_selects_flow (env : NetEnv) (st : ClientState)
    (u p : String) (hc : pyTruthy st.cookies = false) :
    (env.probe.status = 200 →
      ((getCookies env st (some u) (some p)).2.1).take 2 =
        [Req.probe, Req.signinGet]) ∧
    (env.probe.status = 302 →
      ((getCookies env st (some u) (some p)).2.1).take 2 =
        [Req.probe, Req.ssoPreGet]) ∧
    (env.probe.status ≠ 200 → env.probe.status ≠ 302 →
      getCookies env st (some u) (some p) =
        (Except.error GCError.unknownPrestart, [Req.probe], st)) := by
  refine ⟨?_, ?_, ?_⟩
  · intro h200
    rw [getCookies_trace_of_falsy env st u p hc]
    have hneg : (negotiate env).2 = Req.probe :: (legacyFlow env).2 := by
      simp [negotiate, h200]
    rw [hneg, List.take_succ_cons, legacyFlow_trace_take_one]
  · intro h302
    rw [getCookies_trace_of_falsy env st u p hc]
    have hneg : (negotiate env).2 = Req.probe :: (ssoFlow env).2 := by
      simp [negotiate, h302]
    rw [hneg, List.take_succ_cons, ssoFlow_trace_take_one]
  · intro h200 h302
    exact getCookies_of_negotiate_error env st u p _ _ hc
      (by simp [negotiate, h200, h302])

/-- C1 witness: a 200 probe reaches the sign-in page fetch, a 302 probe
reaches the SSO login-page fetch, and a 404 probe fails with the
protocol-mismatch error having issued only the probe. -/
theorem probe_status_selects_flow_witness :
    ((getCookies envLegacy stFresh (some "u") (some "p")).2.1).take 2 =
      [Req.probe, Req.signinGet] ∧
    ((getCookies env302 stFresh (some "u") (some "p")).2.1).take 2 =
      [Req.probe, Req.ssoPreGet] ∧
    getCookies env404 stFresh (some "u") (some "p") =
      (Except.error GCError.unknownPrestart, [Req.probe], stFresh) :=
  ⟨(probe_status_selects_flow envLegacy stFresh "u" "p" rfl).1 rfl,
   (probe_status_selects_flow env302 stFresh "u" "p" rfl).2.1 rfl,
   (probe_status_selects_flow env404 stFresh "u" "p" rfl).2.2
     (by decide) (by decide)⟩

/-- C2: in the legacy flow, when the sign-in page's first view-state match is
`j_id n` and every credential post is rejected (non-5xx, non-redirect, body
carrying the `errorMessage` marker), the three posts carry `j_id n`,
`j_id (n+1)`, `j_id (n+2)` in that order, negotiation then raises the
intervention-required `Invalid login` error, and no fourth post is issued. -/
theorem legacy_viewstate_increments_and_bounds (env : NetEnv)
    (st : ClientState) (u p : String) (n : Nat)
    (hc : pyTruthy st.cookies = false)
    (hprobe : env.probe.status = 200)
    (hjid : findJid env.signinPage.body.toList = some n)
    (hposts : ∀ i, i < 3 →
      ¬(500 ≤ (env.posts i).status ∧ (env.posts i).status < 600) ∧
      (env.posts i).status ≠ 302 ∧
      strContains "errorMessage" (env.posts i).body = true) :
    getCookies env st (some u) (some p) =
      (Except.error GCError.invalidLogin,
       [Req.probe, Req.signinGet,
        Req.signinPost ("j_id" ++ toString n),
        Req.signinPost ("j_id" ++ toString (n + 1)),
        Req.signinPost ("j_id" ++ toString (n + 2))], st) := by
  have hloop := legacyLoop_three_failures env.posts n hposts
  have hjid2 : findJid env.signinPage.body.data = some n := hjid
  have hflow : legacyFlow env =
      (Except.error GCError.invalidLogin,
       [Req.signinGet,
        Req.signinPost ("j_id" ++ toString n),
        Req.signinPost ("j_id" ++ toString (n + 1)),
        Req.signinPost ("j_id" ++ toString (n + 2))]) := by
    simp [legacyFlow, hjid2, hloop]
  exact getCookies_of_negotiate_error env st u p _ _ hc
    (by simp [negotiate, hprobe, hflow])

/-- C2 witness: a sign-in page carrying `j_id42` and three rejected posts
yield exactly the posts `j_id42`, `j_id43`, `j_id44` and the
intervention-required `Invalid login` error. -/
theorem legacy_viewstate_increments_and_bounds_witness :
    getCookies envLegacy stFresh (some "u") (some "p") =
      (Except.error GCError.invalidLogin,
       [Req.probe, Req.signinGet, Req.signinPost "j_id42",
        Req.signinPost "j_id43", Req.signinPost "j_id44"], stFresh) :=
  legacy_viewstate_increments_and_bounds envLegacy stFresh "u" "p" 42 rfl rfl
    (by decide) (by decide)

/-- C3: in the SSO flow, when the SSO login page is served (200, with a login
token) and the credential post answers 200 with a body from which no ticket
can be pattern-matched, negotiation raises the intervention-required
`Invalid login` error and issues no ticket-redemption request. -/
theorem sso_missing_ticket_no_redemption (env : NetEnv) (st : ClientState)
    (u p : String) (l : List Char)
    (hc : pyTruthy st.cookies = false)
    (hprobe : env.probe.status = 302)
    (hpre : env.ssoPre.status = 200)
    (hlt : findLt env.ssoPre.body.toList = some l)
    (hlogin : env.ssoLogin.status = 200)
    (hticket : findTicket env.ssoLogin.body.toList = none) :
    getCookies env st (some u) (some p) =
      (Except.error GCError.invalidLogin,
       [Req.probe, Req.ssoPreGet, Req.ssoLoginPost], st) := by
  have hlt2 : findLt env.ssoPre.body.data = some l := hlt
  have hticket2 : findTicket env.ssoLogin.body.data = none := hticket
  have hflow : ssoFlow env =
      (Except.error GCError.invalidLogin, [Req.ssoPreGet, Req.ssoLoginPost]) := by
    simp [ssoFlow, hpre, hlt2, hlogin, hticket2]
  exact getCookies_of_negotiate_error env st u p _ _ hc
    (by simp [negotiate, hprobe, hflow])

/-- C3 witness: an SSO login body without a ticket fails with `Invalid login`
after exactly the SSO page fetch and the SSO credential post. -/
theorem sso_missing_ticket_no_redemption_witness :
    getCookies env302 stFresh (some "u") (some "p") =
      (Except.error GCError.invalidLogin,
       [Req.probe, Req.ssoPreGet, Req.ssoLoginPost], stFresh) :=
  sso_missing_ticket_no_redemption env302 stFresh "u" "p" "LT-55".toList rfl
    rfl rfl (by decide) rfl (by decide)

/-- C4 counterexample: an instance that negotiated an *empty* cookie jar holds
a credential, yet re-invoking `_get_cookies` does not return it: with no
username/password it raises `Username and/or password missing` instead
(`if self.cookies:` is false for an empty jar), and with credentials supplied
it re-runs the whole negotiation, here issuing a fresh probe request. -/
theorem cached_empty_jar_not_returned :
    getCookies envDummy stEmptyJar none none =
      (Except.error GCError.missingCredentials, [], stEmptyJar) ∧
    getCookies env404 stEmptyJar (some "u") (some "p") =
      (Except.error GCError.unknownPrestart, [Req.probe], stEmptyJar) := by
  exact ⟨rfl, rfl⟩

/-- C4 (amended): for every client instance whose cached credential is a
*non-empty* cookie jar, re-invoking `_get_cookies` issues zero network
requests and returns the identical cached jar, whatever arguments are
passed. -/
theorem negotiate_cached_nonempty_idempotent (env : NetEnv) (st : ClientState)
    (u p : Option String) (c : Credential) (hc : st.cookies = some c)
    (hne : c ≠ []) :
    getCookies env st u p = (Except.ok c, [], st) := by
  have ht : pyTruthy (some c) = true := by
    cases c with
    | nil => exact absurd rfl hne
    | cons a t => rfl
  simp [getCookies, hc, ht]

/-- C4 witness: a client holding a non-empty jar gets it back unchanged, with
no network requests, even when negotiation inputs are supplied. -/
theorem negotiate_cached_nonempty_idempotent_witness :
    getCookies env404 stAuth (some "u") (some "p") =
      (Except.ok [("session", "abc")], [], stAuth) :=
  negotiate_cached_nonempty_idempotent env404 stAuth (some "u") (some "p")
    [("session", "abc")] rfl (by decide)

/-- C5: the upload response classification of `upload_file`: zero successes
with a first failure whose first message code is the duplicate constant (202)
yields `EXISTS` with that failure's internal id; zero successes with any
other first message code yields `FAIL` with that failure's message list;
a listed success yields `SUCCESS` with the first success's internal id. -/
theorem upload_file_classification (env : NetEnv) (st : ClientState)
    (ext : String) (hc : pyTruthy st.cookies = true)
    (hext : ext ∈ VALID_GARMIN_FILE_EXTENSIONS) :
    (∀ (r : DetailedImportResult) (f : UploadEntry) (m : Message),
      r.successes = [] → r.failures.head? = some f → f.messages.head? = some m →
      m.code = DUPLICATE_CODE →
      uploadFile env st ext r =
        (Except.ok (UploadResult.EXISTS f.internalId), [Req.uploadPost ext])) ∧
    (∀ (r : DetailedImportResult) (f : UploadEntry) (m : Message),
      r.successes = [] → r.failures.head? = some f → f.messages.head? = some m →
      m.code ≠ DUPLICATE_CODE →
      uploadFile env st ext r =
        (Except.ok (UploadResult.FAIL f.messages), [Req.uploadPost ext])) ∧
    (∀ (r : DetailedImportResult) (s : UploadEntry) (rest : List UploadEntry),
      r.successes = s :: rest →
      uploadFile env st ext r =
        (Except.ok (UploadResult.SUCCESS s.internalId), [Req.uploadPost ext])) := by
  have hg : getCookies env st none none =
      (Except.ok (st.cookies.getD []), [], st) := by
    simp [getCookies, hc]
  refine ⟨?_, ?_, ?_⟩
  · intro r f m hs hf hm hcode
    simp [uploadFile, hext, hg, classifyUpload, hs, hf, hm, hcode]
  · intro r f m hs hf hm hcode
    simp [uploadFile, hext, hg, classifyUpload, hs, hf, hm, hcode]
  · intro r s rest hs
    simp [uploadFile, hext, hg, classifyUpload, hs]

/-- C5 witness: the three classifications at concrete responses: a duplicate
failure (code 202), a plain failure (code 500), and a success. -/
theorem upload_file_classification_witness :
    uploadFile envDummy stAuth ".tcx" ⟨[], [⟨99, [⟨202, "dup"⟩]⟩]⟩ =
      (Except.ok (UploadResult.EXISTS 99), [Req.uploadPost ".tcx"]) ∧
    uploadFile envDummy stAuth ".tcx" ⟨[], [⟨99, [⟨500, "boom"⟩]⟩]⟩ =
      (Except.ok (UploadResult.FAIL [⟨500, "boom"⟩]), [Req.uploadPost ".tcx"]) ∧
    uploadFile envDummy stAuth ".tcx" ⟨[⟨7, []⟩], []⟩ =
      (Except.ok (UploadResult.SUCCESS 7), [Req.uploadPost ".tcx"]) :=
  ⟨(upload_file_classification envDummy stAuth ".tcx" rfl (by decide)).1
      ⟨[], [⟨99, [⟨202, "dup"⟩]⟩]⟩ ⟨99, [⟨202, "dup"⟩]⟩ ⟨202, "dup"⟩
      rfl rfl rfl rfl,
   (upload_file_classification envDummy stAuth ".tcx" rfl (by decide)).2.1
      ⟨[], [⟨99, [⟨500, "boom"⟩]⟩]⟩ ⟨99, [⟨500, "boom"⟩]⟩ ⟨500, "boom"⟩
      rfl rfl rfl (by decide),
   (upload_file_classification envDummy stAuth ".tcx" rfl (by decide)).2.2
      ⟨[⟨7, []⟩], []⟩ ⟨7, []⟩ [] rfl⟩

/-- C6: the code contradicts the spec here.  For an unresolvable label the
resolver returns Python `False`, but `set_activity_type` guards with
`if activity_key is None:`, which is false for `False`; the unreachable guard
means the operation does NOT return early: with a cached session it issues
the rate-limited activity-type post anyway, carrying `value = False`. -/
theorem set_activity_type_unresolved_label_still_posts :
    checkActivityType hierarchyStd "unicorn" = PyVal.pyFalse ∧
    setActivityType envDummy stAuth hierarchyStd 7 "unicorn" ⟨500, none⟩ =
      (Except.ok false, [Req.typePost 7 PyVal.pyFalse]) := by
  refine ⟨by decide, ?_⟩
  have h : checkActivityType hierarchyStd "unicorn" = PyVal.pyFalse := by decide
  simp [setActivityType, h, pyIsNone, getCookies, pyTruthy, stAuth]

/-- C7 counterexample: against a dictionary whose entry has key `Running`
and display `x`, the label `RUNNING` matches the key case-insensitively
(both lower-case to `running`), yet the resolver returns NotFound: the label
is lower-cased but the key is compared verbatim. -/
theorem resolver_key_not_case_insensitive :
    checkActivityType [⟨"Running", "x"⟩] "RUNNING" = PyVal.pyFalse ∧
    pyLower "RUNNING" = pyLower "Running" := by
  exact ⟨by decide, by decide⟩

/-- C7 (amended): the resolver lower-cases the label and compares it verbatim
against each entry's `key` and case-insensitively against each entry's
`display`; the first entry matching in dictionary order wins, and when no
entry matches the result is the non-exception value `False`. -/
theorem check_activity_type_first_match (hierarchy : List ActivityTypeEntry)
    (label : String) :
    checkActivityType hierarchy label =
      (match hierarchy.find? (entryMatches label) with
       | some e => PyVal.str e.key
       | none => PyVal.pyFalse) := by
  induction hierarchy with
  | nil => rfl
  | cons e rest ih =>
    have hcons : checkActivityType (e :: rest) label =
        (if entryMatches label e then PyVal.str e.key
         else checkActivityType rest label) := rfl
    cases hm : entryMatches label e with
    | true => simp [hcons, hm, List.find?_cons, hm]
    | false => simp [hcons, hm, List.find?_cons, ih]

/-- C8: with a session present, `set_workout_name` reports `true` exactly
when the response status is 200 and the echoed value equals the requested
name byte-for-byte; any other echoed string or any non-200 status reports
`false` without raising. -/
theorem set_workout_name_exact_echo (env : NetEnv) (st : ClientState)
    (workoutId : Int) (name : String) (resp : RenameResp)
    (hc : pyTruthy st.cookies = true)
    (hecho : resp.status = 200 → resp.echo.isSome) :
    (setWorkoutName env st workoutId name resp =
        (Except.ok true, [Req.renamePost workoutId]) ↔
      resp.status = 200 ∧ resp.echo = some name) ∧
    (¬(resp.status = 200 ∧ resp.echo = some name) →
      setWorkoutName env st workoutId name resp =
        (Except.ok false, [Req.renamePost workoutId])) := by
  have hg : getCookies env st none none =
      (Except.ok (st.cookies.getD []), [], st) := by
    simp [getCookies, hc]
  by_cases h200 : resp.status = 200
  · obtain ⟨v, hv⟩ := Option.isSome_iff_exists.mp (hecho h200)
    have hw : setWorkoutName env st workoutId name resp =
        (Except.ok (v == name), [Req.renamePost workoutId]) := by
      simp [setWorkoutName, hg, h200, hv]
    by_cases hvn : v = name
    · subst hvn
      refine ⟨⟨fun _ => ⟨h200, hv⟩, fun _ => ?_⟩, fun hcon => absurd ⟨h200, hv⟩ hcon⟩
      rw [hw]
      simp
    · refine ⟨⟨fun heq => ?_, fun hand => ?_⟩, fun _ => ?_⟩
      · rw [hw] at heq
        have h1 : (v == name) = true := by
          have h2 := congrArg Prod.fst heq
          simpa using h2
        exact absurd (by simpa using h1) hvn
      · obtain ⟨-, hv2⟩ := hand
        rw [hv] at hv2
        exact absurd (Option.some.inj hv2) hvn
      · rw [hw]
        simp [hvn]
  · have hw : setWorkoutName env st workoutId name resp =
        (Except.ok false, [Req.renamePost workoutId]) := by
      simp [setWorkoutName, hg, h200]
    refine ⟨⟨fun heq => ?_, fun hand => absurd hand.1 h200⟩, fun _ => hw⟩
    rw [hw] at heq
    have h2 := congrArg Prod.fst heq
    simp at h2

/-- C8 witness: an exact echo of `Morning Run` under a 200 status reports
`true`; a case-mismatched echo reports `false`. -/
theorem set_workout_name_exact_echo_witness :
    setWorkoutName envDummy stAuth 5 "Morning Run" ⟨200, some "Morning Run"⟩ =
      (Except.ok true, [Req.renamePost 5]) ∧
    setWorkoutName envDummy stAuth 5 "Morning Run" ⟨200, some "morning run"⟩ =
      (Except.ok false, [Req.renamePost 5]) :=
  ⟨(set_workout_name_exact_echo envDummy stAuth 5 "Morning Run"
      ⟨200, some "Morning Run"⟩ rfl (fun _ => rfl)).1.mpr ⟨rfl, rfl⟩,
   (set_workout_name_exact_echo envDummy stAuth 5 "Morning Run"
      ⟨200, some "morning run"⟩ rfl (fun _ => rfl)).2 (by decide)⟩

/-- C9 counterexample: a first `_rate_limit()` call at clock reading 1/2
sleeps for 1/2 > 0: `self._last_req_start` is initialised to 0.0, not to the
current time, so a first call less than `min_period` after the clock origin
does wait, contradicting `the first call never waits`. -/
theorem rate_limit_first_call_waits :
    (rateLimit none (1 / 2)).1 = 1 / 2 ∧ (0 : ℚ) < 1 / 2 := by
  constructor
  · have h : MIN_PERIOD - ((1 : ℚ) / 2 - (0 : ℚ)) = 1 / 2 := by
      rw [MIN_PERIOD]; norm_num
    simp only [rateLimit, Option.getD_none, h]
    rw [max_eq_right (by norm_num : (0 : ℚ) ≤ 1 / 2)]
  · norm_num

/-- C9 (amended): for every sequence of `_rate_limit()` calls the recorded
start times of consecutive calls are at least `min_period` apart, and the
first call does not wait provided its clock reading is at least `min_period`
(the last-start field starts at 0, so earlier first calls do wait). -/
theorem rate_limit_spacing_and_first_call (times : List ℚ) :
    List.Chain' (fun a b => a + MIN_PERIOD ≤ b) (recordedStarts none times) ∧
    (∀ now : ℚ, MIN_PERIOD ≤ now → (rateLimit none now).1 = 0) := by
  refine ⟨recordedStarts_chain times none, ?_⟩
  intro now h
  rw [MIN_PERIOD] at h
  simp only [rateLimit, Option.getD_none, MIN_PERIOD, sub_zero]
  rw [max_eq_left (by linarith)]

/-- C9 witness: for the call sequence with clock readings 2, 2, 10 the
recorded starts are spaced at least 1 apart, and a first call at clock
reading 5 does not wait. -/
theorem rate_limit_spacing_and_first_call_witness :
    List.Chain' (fun a b => a + MIN_PERIOD ≤ b) (recordedStarts none [2, 2, 10]) ∧
    (rateLimit none 5).1 = 0 :=
  ⟨(rate_limit_spacing_and_first_call [2, 2, 10]).1,
   (rate_limit_spacing_and_first_call [2, 2, 10]).2 5
     (by rw [MIN_PERIOD]; norm_num)⟩

/-- C10: on a client holding no cached credential, `upload_file`,
`set_workout_name` and `set_activity_type` all raise `Username and/or
password missing` out of `_get_cookies` — they pass no username or password,
so lazy negotiation cannot occur — and no network request is issued. -/
theorem ops_without_credential_raise (env : NetEnv) (st : ClientState)
    (ext : String) (r : DetailedImportResult) (id1 id2 : Int)
    (name label : String) (hierarchy : List ActivityTypeEntry)
    (r2 : RenameResp) (r3 : TypeResp)
    (hc : st.cookies = none) (hext : ext ∈ VALID_GARMIN_FILE_EXTENSIONS) :
    uploadFile env st ext r = (Except.error GCError.missingCredentials, []) ∧
    setWorkoutName env st id1 name r2 =
      (Except.error GCError.missingCredentials, []) ∧
    setActivityType env st hierarchy id2 label r3 =
      (Except.error GCError.missingCredentials, []) := by
  have hg : getCookies env st none none =
      (Except.error GCError.missingCredentials, [], st) := by
    simp [getCookies, hc, pyTruthy]
  refine ⟨?_, ?_, ?_⟩
  · simp [uploadFile, hext, hg]
  · simp [setWorkoutName, hg]
  · simp [setActivityType, checkActivityType_not_none, hg]

/-- C10 witness: a fresh client raises the missing-credentials error from all
three operations with an empty request trace. -/
theorem ops_without_credential_raise_witness :
    uploadFile envDummy stFresh ".tcx" ⟨[], []⟩ =
      (Except.error GCError.missingCredentials, []) ∧
    setWorkoutName envDummy stFresh 1 "x" ⟨200, some "x"⟩ =
      (Except.error GCError.missingCredentials, []) ∧
    setActivityType envDummy stFresh hierarchyStd 2 "unicorn" ⟨200, none⟩ =
      (Except.error GCError.missingCredentials, []) :=
  ops_without_credential_raise envDummy stFresh ".tcx" ⟨[], []⟩ 1 2 "x"
    "unicorn" hierarchyStd ⟨200, some "x"⟩ ⟨200, none⟩ rfl (by decide)

end GarminUploader
